import Mathlib

/-!
Shallow embedding of the authentication and session-revocation subsystem of
the backend: token blacklist service, the two authentication guards
(user and admin), the auth-service flows (login, refresh, logout, password
reset) and the expiry-string parser.  External collaborators (the Redis
client, the JWT library, bcrypt, the ORM lookups, the mailer) are modelled
as explicit oracles passed in through environment structures; each oracle
returns the value (or failure) the collaborator would produce, so the
control flow of every function below mirrors the TypeScript source
line by line.
-/

deriving instance DecidableEq for Except

namespace Backend

/-! ## Data model (prisma schema / TS interfaces) -/

/-- `UserStatus` enum: ACTIVE | DEACTIVATED | DELETED. -/
inductive UserStatus
  | ACTIVE
  | DEACTIVATED
  | DELETED
deriving DecidableEq, Repr

/-- A `User` record, restricted to the fields the auth subsystem reads. -/
structure UserRec where
  id : String
  email : String
  firstName : String
  lastName : String
  role : String
  status : UserStatus
  isDeleted : Bool
  emailVerified : Bool
  password : Option String
deriving DecidableEq, Repr

/-- An `Admin` record, restricted to the fields the auth subsystem reads.
Admins carry `isDeleted`/`isSuspended` flags instead of a status enum. -/
structure AdminRec where
  id : String
  email : String
  firstName : String
  lastName : String
  role : String
  isDeleted : Bool
  isSuspended : Bool
  password : String
deriving DecidableEq, Repr

/-- HTTP exceptions thrown by the services / guards (NestJS exception
classes), carrying the user-facing message. -/
inductive HttpError
  | unauthorized (msg : String)
  | badRequest (msg : String)
  | notFound (msg : String)
  | conflict (msg : String)
  | serverError
deriving DecidableEq, Repr

/-- The HTTP status code of each exception class. -/
def HttpError.statusCode : HttpError → Nat
  | .unauthorized _ => 401
  | .badRequest _ => 400
  | .notFound _ => 404
  | .conflict _ => 409
  | .serverError => 500

/-- The `{status, message, data}` response envelope built by the
`SuccessResponse` helper. -/
structure ApiResponse (α : Type) where
  status : String
  message : String
  data : α
deriving DecidableEq, Repr

/-- `SuccessResponse(msg, data)` helper from `src/helpers`. -/
def SuccessResponse (msg : String) (data : α) : ApiResponse α :=
  ⟨"success", msg, data⟩

/-! ## Token blacklist service (`token-blacklist.service.ts`)

The Redis client's `get` is modelled as an oracle
`redisGet : String → Except String (Option String)`: `.ok none` is a miss
(`null`), `.ok (some v)` a hit, `.error e` a thrown client error. -/

/-- `TokenBlacklistService.isTokenBlacklisted`: reads `blacklist:<token>`;
a thrown store error is caught and degrades to `false` (fail open). -/
def isTokenBlacklisted (redisGet : String → Except String (Option String))
    (token : String) : Bool :=
  match redisGet ("blacklist:" ++ token) with
  | .ok result => result.isSome
  | .error _ => false

/-- `TokenBlacklistService.isUserBlacklisted`: reads `blacklist:user:<id>`;
fails open on store error. -/
def isUserBlacklisted (redisGet : String → Except String (Option String))
    (userId : String) : Bool :=
  match redisGet ("blacklist:user:" ++ userId) with
  | .ok result => result.isSome
  | .error _ => false

/-- `TokenBlacklistService.isAdminBlacklisted`: reads
`blacklist:admin:<id>`; fails open on store error. -/
def isAdminBlacklisted (redisGet : String → Except String (Option String))
    (adminId : String) : Bool :=
  match redisGet ("blacklist:admin:" ++ adminId) with
  | .ok result => result.isSome
  | .error _ => false

/-- `TokenBlacklistService.blacklistToken`: `setEx("blacklist:<token>",
ttl, '1')`; a store error is rethrown to the caller. -/
def blacklistToken (setEx : String → Int → Except String Unit)
    (token : String) (expiresInSeconds : Int) : Except String Unit :=
  setEx ("blacklist:" ++ token) expiresInSeconds

/-! ## Expiry-string parser (`parseExpiryToSeconds`) -/

/-- `DEFAULT_TOKEN_EXPIRY_SECONDS = 7 * 24 * 60 * 60` from
`src/constants`. -/
def DEFAULT_TOKEN_EXPIRY_SECONDS : Nat := 7 * 24 * 60 * 60

/-- Decimal digit-string value, as `parseInt(s, 10)` computes it on an
all-digit string. -/
def parseIntDec (ds : List Char) : Nat :=
  ds.foldl (fun acc c => acc * 10 + (c.toNat - '0'.toNat)) 0

/-- The regex `/^(\d+)([smhdw])$/i`: a non-empty run of digits followed by
exactly one unit letter (case-insensitive).  Returns the two capture
groups on a match. -/
def expiryRegexMatch (s : String) : Option (List Char × Char) :=
  match s.data.getLast? with
  | none => none
  | some u =>
    if s.data.dropLast ≠ [] ∧ s.data.dropLast.all Char.isDigit ∧
        u.toLower ∈ ['s', 'm', 'h', 'd', 'w']
    then some (s.data.dropLast, u)
    else none

/-- The `unitMultipliers` record literal inside `parseExpiryToSeconds`. -/
def unitMultipliers (c : Char) : Option Nat :=
  if c = 's' then some 1
  else if c = 'm' then some 60
  else if c = 'h' then some (60 * 60)
  else if c = 'd' then some (60 * 60 * 24)
  else if c = 'w' then some (60 * 60 * 24 * 7)
  else none

/-- `parseExpiryToSeconds` from `src/utils/time.utils`: regex match,
`parseInt` on group 1, lower-cased group 2 looked up in the multiplier
map (with the dead `?? DEFAULT` fallback), default on no match. -/
def parseExpiryToSeconds (expiry : String) : Nat :=
  match expiryRegexMatch expiry with
  | none => DEFAULT_TOKEN_EXPIRY_SECONDS
  | some (digits, unitChar) =>
    let value := parseIntDec digits
    let unit := unitChar.toLower
    value * ((unitMultipliers unit).getD DEFAULT_TOKEN_EXPIRY_SECONDS)

/-- The spec's unit table `{s:1, m:60, h:3600, d:86400, w:604800}`,
written from the spec's words for the refinement statement of C9. -/
def specUnitSeconds : Char → Nat
  | 's' => 1
  | 'm' => 60
  | 'h' => 3600
  | 'd' => 86400
  | 'w' => 604800
  | _ => 0

/-! ## JWT verification / decoding oracles

`jwtService.verifyAsync` either resolves with the payload or rejects with
an error whose `name` distinguishes expiry (`TokenExpiredError`) from
malformation (`JsonWebTokenError`) from anything else. -/

/-- A decoded JWT payload as the code types it: `{sub, email, role}`.
An absent `sub` claim is modelled as the empty string (JS falsy), which
is exactly what the guards' `!id` test treats as missing. -/
structure JwtClaims where
  sub : String
  email : String
  role : String
deriving DecidableEq, Repr

/-- Outcome of `jwtService.verifyAsync(token, secret)`. -/
inductive VerifyOutcome
  | ok (payload : JwtClaims)
  | expired
  | malformed
  | otherError
deriving DecidableEq, Repr

/-- An error caught by a guard's `catch (err)` block: a JWT library
rejection (classified by `err.name`), an `HttpException` the `try` body
itself threw, or any other error. -/
inductive CaughtErr
  | expired
  | malformed
  | thrown (e : HttpError)
  | otherError
deriving DecidableEq, Repr

/-! ## JS string primitives

`String.prototype.split(sep)` with a one-character separator and
`String.prototype.toLowerCase()` (on the ASCII range the guards compare
against), modelled by structural recursion so they evaluate in the
kernel. -/

/-- Accumulating splitter over the character list: splits at every
occurrence of `sep`, keeping empty chunks, exactly like JS `split`. -/
def jsSplitAux (sep : Char) : List Char → List Char → List (List Char)
  | [], acc => [acc.reverse]
  | c :: rest, acc =>
    if c = sep then acc.reverse :: jsSplitAux sep rest []
    else jsSplitAux sep rest (c :: acc)

/-- JS `s.split(sep)` for a single-character separator:
`"a b".split(' ') = ["a","b"]`, `"".split(' ') = [""]`. -/
def jsSplit (s : String) (sep : Char) : List String :=
  (jsSplitAux sep s.data []).map String.mk

/-- JS `s.toLowerCase()` (character-wise lowering). -/
def jsToLower (s : String) : String :=
  String.mk (s.data.map Char.toLower)

/-! ## User authentication guard (`auth.guard.ts`) -/

/-- Environment of `AuthGuard`: configuration plus the collaborator
oracles (Redis read, JWT verify with the access secret, ORM lookups,
base64 decode, bcrypt compare). -/
structure UserGuardEnv where
  basicAuthEnabled : Bool
  redisGet : String → Except String (Option String)
  verifyAccess : String → VerifyOutcome
  findUserById : String → Option UserRec
  findUserByEmail : String → Option UserRec
  decodeBase64 : String → String
  bcryptCompare : String → String → Bool


/-- Body of `AuthGuard.authenticateBasicAuth`'s `try` block.  JS
destructuring `[email, password] = decoded.split(':')` yields the first
two chunks, missing ones being falsy (modelled `""`). -/
def basicAuthTryBody (env : UserGuardEnv) (authValue : String) :
    Except HttpError (String × String) :=
  let decoded := env.decodeBase64 authValue
  let parts := jsSplit decoded ':'
  let email := parts.headD ""
  let password := (parts.drop 1).headD ""
  if email = "" ∨ password = "" then
    .error (.unauthorized "Invalid Basic Auth credentials format.")
  else
    match env.findUserByEmail email with
    | none => .error (.unauthorized "User not found.")
    | some user =>
      if user.isDeleted ∨ user.status = .DELETED then
        .error (.unauthorized "This account does not exist.")
      else if user.status ≠ .ACTIVE then
        .error (.unauthorized "You can't login at the moment.")
      else if ¬ env.bcryptCompare password (user.password.getD "") then
        .error (.badRequest "Wrong Credentials, try again.")
      else
        .ok (user.id, user.role)

/-- `AuthGuard.authenticateBasicAuth`: the bare `catch` replaces every
failure of the `try` body with a single 401. -/
def authenticateBasicAuth (env : UserGuardEnv) (authValue : String) :
    Except HttpError (String × String) :=
  match basicAuthTryBody env authValue with
  | .ok v => .ok v
  | .error _ => .error (.unauthorized "Basic Auth authentication failed.")

/-- Body of the `try` block of `AuthGuard.authenticateUser` (the JWT
path): verify, extract `sub`, identity-blacklist check, ORM lookup,
deleted/status checks.  Exceptions thrown here are `CaughtErr.thrown`. -/
def userGuardTryBody (env : UserGuardEnv) (authValue : String) :
    Except CaughtErr (String × String) :=
  match env.verifyAccess authValue with
  | .expired => .error .expired
  | .malformed => .error .malformed
  | .otherError => .error .otherError
  | .ok payload =>
    if payload.sub = "" then
      .error (.thrown (.unauthorized "Invalid token: ID not present."))
    else if isUserBlacklisted env.redisGet payload.sub then
      .error (.thrown (.unauthorized "User tokens have been revoked."))
    else
      match env.findUserById payload.sub with
      | none => .error (.thrown (.unauthorized "User not found."))
      | some user =>
        if user.isDeleted ∨ user.status = .DELETED then
          .error (.thrown (.unauthorized "This account does not exist."))
        else if user.status ≠ .ACTIVE then
          .error (.thrown (.unauthorized "You can't login at the moment."))
        else
          .ok (user.id, user.role)

/-- `AuthGuard.authenticateUser` after the header has been split into
`[authType, authValue]`.  The `catch` block keys on `err.name`, so the
`HttpException`s thrown inside the `try` (whose names are their class
names) all land in the `else` branch and are replaced by
`'Authentication failed.'`. -/
def authenticateUserParsed (env : UserGuardEnv)
    (authType authValue : String) : Except HttpError (String × String) :=
  if env.basicAuthEnabled ∧ jsToLower authType = "basic" then
    authenticateBasicAuth env authValue
  else if jsToLower authType ≠ "bearer" ∨ authValue = "" then
    .error (.unauthorized "Invalid authorization type.")
  else if isTokenBlacklisted env.redisGet authValue then
    .error (.unauthorized "Token has been revoked.")
  else
    match userGuardTryBody env authValue with
    | .ok v => .ok v
    | .error .expired => .error (.unauthorized "Token expired.")
    | .error .malformed => .error (.unauthorized "Malformed token.")
    | .error (.thrown _) => .error (.unauthorized "Authentication failed.")
    | .error .otherError => .error (.unauthorized "Authentication failed.")

/-- `AuthGuard.authenticateUser`: missing or empty `authorization` header
is rejected up front; otherwise the header is split on spaces and the
first two chunks are the auth type and value. -/
def authenticateUser (env : UserGuardEnv) (authHeader : Option String) :
    Except HttpError (String × String) :=
  match authHeader with
  | none => .error (.unauthorized "Authorization header is missing or invalid.")
  | some bearerHeader =>
    if bearerHeader = "" then
      .error (.unauthorized "Authorization header is missing or invalid.")
    else
      let parts := jsSplit bearerHeader ' '
      authenticateUserParsed env (parts.headD "") ((parts.drop 1).headD "")

/-! ## Admin authentication guard (`admin-auth.guard.ts`) -/

/-- Environment of `AdminAuthGuard` (no basic-auth fallback). -/
structure AdminGuardEnv where
  redisGet : String → Except String (Option String)
  verifyAccess : String → VerifyOutcome
  findAdminById : String → Option AdminRec


/-- Body of the `try` block of `AdminAuthGuard.authenticateAdmin`. -/
def adminGuardTryBody (env : AdminGuardEnv) (authValue : String) :
    Except CaughtErr (String × String) :=
  match env.verifyAccess authValue with
  | .expired => .error .expired
  | .malformed => .error .malformed
  | .otherError => .error .otherError
  | .ok payload =>
    if payload.sub = "" then
      .error (.thrown (.unauthorized "Invalid token"))
    else if isAdminBlacklisted env.redisGet payload.sub then
      .error (.thrown (.unauthorized "Admin tokens have been revoked."))
    else
      match env.findAdminById payload.sub with
      | none => .error (.thrown (.unauthorized "Admin not found"))
      | some admin =>
        if admin.isDeleted then
          .error (.thrown (.unauthorized "Admin not found"))
        else if admin.isSuspended then
          .error (.thrown (.unauthorized "Admin suspended"))
        else
          .ok (admin.id, admin.role)

/-- `AdminAuthGuard.authenticateAdmin` on the split header.  Its `catch`
rethrows `UnauthorizedException`s, maps expiry to a 401 and — unlike the
user guard — maps `JsonWebTokenError` to a **400** `BadRequestException`
with `ErrorMessages.INVALID_JWT_TOKEN_MESSAGE` (`'Invalid token'`). -/
def authenticateAdminParsed (env : AdminGuardEnv)
    (authType authValue : String) : Except HttpError (String × String) :=
  if jsToLower authType ≠ "bearer" ∨ authValue = "" then
    .error (.unauthorized "Invalid authorization type")
  else if isTokenBlacklisted env.redisGet authValue then
    .error (.unauthorized "Token has been revoked.")
  else
    match adminGuardTryBody env authValue with
    | .ok v => .ok v
    | .error .expired => .error (.unauthorized "Token expired")
    | .error .malformed => .error (.badRequest "Invalid token")
    | .error (.thrown (.unauthorized m)) => .error (.unauthorized m)
    | .error (.thrown _) => .error (.unauthorized "Authentication failed")
    | .error .otherError => .error (.unauthorized "Authentication failed")

/-- `AdminAuthGuard.authenticateAdmin`: header extraction then the
parsed-header flow. -/
def authenticateAdmin (env : AdminGuardEnv) (authHeader : Option String) :
    Except HttpError (String × String) :=
  match authHeader with
  | none => .error (.unauthorized "Authorization header is missing or invalid")
  | some bearerHeader =>
    if bearerHeader = "" then
      .error (.unauthorized "Authorization header is missing or invalid")
    else
      let parts := jsSplit bearerHeader ' '
      authenticateAdminParsed env (parts.headD "") ((parts.drop 1).headD "")

/-! ## Token issuance -/

/-- The `{accessToken, refreshToken}` pair returned by
`generateTokens`. -/
structure TokenPair where
  accessToken : String
  refreshToken : String
deriving DecidableEq, Repr

/-! ## Refresh flows (`UserAuthService.refreshToken`,
`AdminAuthService.refreshToken`) -/

/-- Environment of `UserAuthService.refreshToken`: Redis read, JWT
verification with the refresh secret, ORM lookup, and the token pair the
signing oracle would produce. -/
structure UserRefreshEnv where
  redisGet : String → Except String (Option String)
  verifyRefresh : String → VerifyOutcome
  findUserById : String → Option UserRec
  genTokens : TokenPair

/-- Body of the `try` block of `UserAuthService.refreshToken`. -/
def userRefreshTryBody (env : UserRefreshEnv) (refreshTok : String) :
    Except CaughtErr (ApiResponse TokenPair) :=
  if isTokenBlacklisted env.redisGet refreshTok then
    .error (.thrown (.unauthorized "Token has been revoked"))
  else
    match env.verifyRefresh refreshTok with
    | .expired => .error .expired
    | .malformed => .error .malformed
    | .otherError => .error .otherError
    | .ok payload =>
      if isUserBlacklisted env.redisGet payload.sub then
        .error (.thrown (.unauthorized "User tokens have been revoked"))
      else
        match env.findUserById payload.sub with
        | none => .error (.thrown (.unauthorized "Please log in again"))
        | some user =>
          if user.isDeleted ∨ user.status ≠ .ACTIVE then
            .error (.thrown (.unauthorized "Please log in again"))
          else
            .ok (SuccessResponse "Token refreshed successfully" env.genTokens)

/-- `UserAuthService.refreshToken`: its `catch` swallows **every** error
of the `try` body — including the `UnauthorizedException`s the body
itself threw — and replaces it with a 401 `'Invalid refresh token'`. -/
def userRefreshToken (env : UserRefreshEnv) (refreshTok : String) :
    Except HttpError (ApiResponse TokenPair) :=
  match userRefreshTryBody env refreshTok with
  | .ok r => .ok r
  | .error _ => .error (.unauthorized "Invalid refresh token")

/-- Environment of `AdminAuthService.refreshToken`. -/
structure AdminRefreshEnv where
  redisGet : String → Except String (Option String)
  verifyRefresh : String → VerifyOutcome
  findAdminById : String → Option AdminRec
  genTokens : TokenPair

/-- Body of the `try` block of `AdminAuthService.refreshToken`. -/
def adminRefreshTryBody (env : AdminRefreshEnv) (refreshTok : String) :
    Except CaughtErr (ApiResponse TokenPair) :=
  if isTokenBlacklisted env.redisGet refreshTok then
    .error (.thrown (.unauthorized "Token has been revoked"))
  else
    match env.verifyRefresh refreshTok with
    | .expired => .error .expired
    | .malformed => .error .malformed
    | .otherError => .error .otherError
    | .ok decoded =>
      if isAdminBlacklisted env.redisGet decoded.sub then
        .error (.thrown (.unauthorized "Admin tokens have been revoked"))
      else
        match env.findAdminById decoded.sub with
        | none => .error (.thrown (.unauthorized "Admin not found or inactive"))
        | some admin =>
          if admin.isDeleted ∨ admin.isSuspended then
            .error (.thrown (.unauthorized "Admin not found or inactive"))
          else
            .ok (SuccessResponse "Token refreshed successfully" env.genTokens)

/-- `AdminAuthService.refreshToken`: bare `catch` — every failure becomes
a 401 `'Invalid or expired refresh token'`. -/
def adminRefreshToken (env : AdminRefreshEnv) (refreshTok : String) :
    Except HttpError (ApiResponse TokenPair) :=
  match adminRefreshTryBody env refreshTok with
  | .ok r => .ok r
  | .error _ => .error (.unauthorized "Invalid or expired refresh token")

/-! ## Logout flows (`UserAuthService.logout`, `AdminAuthService.logout`)

`jwtService.decode` (non-verifying) is an oracle returning the claims
with the `exp` field, or `none` when the token does not decode.  Redis
`setEx` is an oracle whose failures the blacklist service rethrows; the
returned list records the successful blacklist writes (token, TTL), in
order. -/

/-- A non-verified decoded payload: `JwtPayload & { exp: number }`. -/
structure DecodedTok where
  sub : String
  email : String
  role : String
  exp : Int
deriving DecidableEq, Repr

/-- Environment of the logout flows. -/
structure LogoutEnv where
  decode : String → Option DecodedTok
  now : Int
  setEx : String → Int → Except String Unit

/-- `Math.max(0, exp - now)`, the remaining-TTL computation of both
logout flows. -/
def remainingTTL (exp now : Int) : Int := max 0 (exp - now)

/-- `UserAuthService.logout`: decodes both tokens (failure of either →
`BadRequestException`, caught → success), blacklists each token whose
remaining TTL is positive, and returns the success envelope even when a
write throws (the `catch` also returns it).  Second component: the
successful blacklist writes. -/
def userLogout (env : LogoutEnv) (accessToken refreshTok : String) :
    ApiResponse (Option Unit) × List (String × Int) :=
  let success := SuccessResponse "Logout successful" (none : Option Unit)
  match env.decode accessToken, env.decode refreshTok with
  | some accessPayload, some refreshPayload =>
    let accessTTL := remainingTTL accessPayload.exp env.now
    let refreshTTL := remainingTTL refreshPayload.exp env.now
    if accessTTL > 0 then
      match blacklistToken env.setEx accessToken accessTTL with
      | .error _ => (success, [])
      | .ok _ =>
        if refreshTTL > 0 then
          match blacklistToken env.setEx refreshTok refreshTTL with
          | .error _ => (success, [(accessToken, accessTTL)])
          | .ok _ =>
            (success, [(accessToken, accessTTL), (refreshTok, refreshTTL)])
        else (success, [(accessToken, accessTTL)])
    else
      if refreshTTL > 0 then
        match blacklistToken env.setEx refreshTok refreshTTL with
        | .error _ => (success, [])
        | .ok _ => (success, [(refreshTok, refreshTTL)])
      else (success, [])
  | _, _ => (success, [])

/-- The `if (dto.refreshToken) {...}` tail of `AdminAuthService.logout`:
a missing or non-decoding refresh token is silently skipped; otherwise
the refresh token is blacklisted when its TTL is positive.  `writes` is
the list of blacklist writes performed so far. -/
def adminLogoutRefreshStep (env : LogoutEnv) (refreshTok : Option String)
    (writes : List (String × Int)) :
    ApiResponse (Option Unit) × List (String × Int) :=
  let success := SuccessResponse "Logout successful" (none : Option Unit)
  match refreshTok with
  | none => (success, writes)
  | some rt =>
    match env.decode rt with
    | none => (success, writes)
    | some refreshPayload =>
      let refreshTTL := remainingTTL refreshPayload.exp env.now
      if refreshTTL > 0 then
        match blacklistToken env.setEx rt refreshTTL with
        | .error _ => (success, writes)
        | .ok _ => (success, writes ++ [(rt, refreshTTL)])
      else (success, writes)

/-- `AdminAuthService.logout`: the refresh token is optional; a
non-decoding access token throws a `BadRequestException` (caught →
success); a failing access-token write aborts the flow (caught →
success, refresh token never attempted). -/
def adminLogout (env : LogoutEnv) (accessToken : String)
    (refreshTok : Option String) :
    ApiResponse (Option Unit) × List (String × Int) :=
  let success := SuccessResponse "Logout successful" (none : Option Unit)
  match env.decode accessToken with
  | none => (success, [])
  | some accessPayload =>
    let accessTTL := remainingTTL accessPayload.exp env.now
    if accessTTL > 0 then
      match blacklistToken env.setEx accessToken accessTTL with
      | .error _ => (success, [])
      | .ok _ => adminLogoutRefreshStep env refreshTok
          [(accessToken, accessTTL)]
    else adminLogoutRefreshStep env refreshTok []

/-! ## Password-reset records and the verify/forgot flows

A `PasswordReset` row keyed by `(email, type)`.  Timestamps are integer
milliseconds.  `MAX_PASSWORD_RESET_ATTEMPTS = 3` in both services,
`OTP_EXPIRATION_TIME = 5` minutes. -/

/-- A `PasswordReset` record (the fields the flows read/write). -/
structure ResetRecord where
  email : String
  code : String
  expiresAt : Int
  attempts : Nat
  verifiedAt : Option Int
deriving DecidableEq, Repr

/-- `MAX_PASSWORD_RESET_ATTEMPTS` (both services). -/
def MAX_PASSWORD_RESET_ATTEMPTS : Nat := 3

/-- `OTP_EXPIRATION_TIME` in minutes, from `src/constants`. -/
def OTP_EXPIRATION_TIME : Int := 5

/-- `UserAuthService.verifyResetCode`, as a transformer of the stored
reset record for `(dto.email, 'USER')`.  `userExists` is the
`prisma.user.findUnique({where:{email}})` outcome, `resetTokenSigned`
the JWT the signing oracle mints for the success branch.  Returns the
HTTP result and the record state afterwards.  Neither the expiry branch
nor the attempt-cap branch deletes the record in this flow. -/
def userVerifyResetCode (userExists : Bool) (record : Option ResetRecord)
    (now : Int) (dtoCode : String) (resetTokenSigned : String) :
    Except HttpError (ApiResponse String) × Option ResetRecord :=
  if ¬ userExists then
    (.error (.notFound "Invalid email"), record)
  else
    match record with
    | none =>
      (.error (.badRequest "Please request a password reset first"), none)
    | some passwordReset =>
      if passwordReset.expiresAt < now then
        (.error (.badRequest "Password reset code expired"), some passwordReset)
      else if passwordReset.attempts ≥ MAX_PASSWORD_RESET_ATTEMPTS then
        (.error (.badRequest
            "Too many failed attempts. Please request a new reset code."),
          some passwordReset)
      else if passwordReset.code ≠ dtoCode then
        (.error (.badRequest "Invalid reset code"),
          some { passwordReset with attempts := passwordReset.attempts + 1 })
      else
        (.ok (SuccessResponse "Reset code verified successfully"
            resetTokenSigned),
          some { passwordReset with verifiedAt := some now })

/-- `AdminAuthService.verifyCode`, as a transformer of the stored reset
record for `(dto.email, 'ADMIN')`.  Expiry and the attempt cap both
delete the record before rejecting. -/
def adminVerifyCode (record : Option ResetRecord) (now : Int)
    (dtoCode : String) :
    Except HttpError (ApiResponse Bool) × Option ResetRecord :=
  match record with
  | none =>
    (.error (.badRequest "No reset request found for this email"), none)
  | some resetData =>
    if now > resetData.expiresAt then
      (.error (.badRequest "Reset code expired"), none)
    else if resetData.attempts ≥ MAX_PASSWORD_RESET_ATTEMPTS then
      (.error (.badRequest "Too many failed attempts"), none)
    else if resetData.code ≠ dtoCode then
      (.error (.badRequest "Invalid reset code"),
        some { resetData with attempts := resetData.attempts + 1 })
    else
      (.ok (SuccessResponse "Code verified successfully" true),
        some resetData)

/-- `UserAuthService.forgotPassword` as a transformer of the stored reset
record: 404 when the user is unknown, otherwise an upsert — the update
branch overwrites `code`/`expiresAt` and resets `attempts` to 0 and
`verifiedAt` to null; the create branch relies on the schema's counter
default.  The schema itself is not under `src/`; its `attempts` default
of 0 is modelled from the spec ("a new request overwrites (upserts)",
attempts counter starting fresh). -/
def userForgotPassword (userExists : Bool) (record : Option ResetRecord)
    (now : Int) (email code : String) :
    Except HttpError (ApiResponse (Option Unit)) × Option ResetRecord :=
  if ¬ userExists then
    (.error (.notFound "Invalid email"), record)
  else
    let expiresAt := now + OTP_EXPIRATION_TIME * 60 * 1000
    let newRecord :=
      match record with
      | some old =>
        { old with code := code, expiresAt := expiresAt, attempts := 0,
                   verifiedAt := none }
      | none =>
        { email := email, code := code, expiresAt := expiresAt,
          attempts := 0, verifiedAt := none }
    (.ok (SuccessResponse "Password reset code sent to your email"
        (none : Option Unit)),
      some newRecord)

/-- `AdminAuthService.forgotPassword` as a transformer of the stored
reset record: 404 when the admin is unknown; upsert (update resets
`code`/`expiresAt`/`attempts`, leaving `verifiedAt` untouched; create
relies on the schema default, modelled from the spec as 0); then the
email send, whose failure is caught and surfaced as a 400 — after the
upsert has already happened. -/
def adminForgotPassword (adminExists : Bool) (record : Option ResetRecord)
    (now : Int) (email code : String) (emailSendOk : Bool) :
    Except HttpError (ApiResponse (Option Unit)) × Option ResetRecord :=
  if ¬ adminExists then
    (.error (.notFound "Admin not found"), record)
  else
    let expiresAt := now + OTP_EXPIRATION_TIME * 60 * 1000
    let newRecord :=
      match record with
      | some old =>
        { old with code := code, expiresAt := expiresAt, attempts := 0 }
      | none =>
        { email := email, code := code, expiresAt := expiresAt,
          attempts := 0, verifiedAt := none }
    if emailSendOk then
      (.ok (SuccessResponse "Password reset code sent to email"
          (none : Option Unit)),
        some newRecord)
    else
      (.error (.badRequest "Failed to send reset code email"),
        some newRecord)

/-! ## User login (`UserAuthService.login`) -/

/-- The data field of a login response: either the unverified-email shape
(`{user:{...}, emailVerified: false, tokens: null}`) or the full login
shape (`{user:{...}, tokens}`). -/
inductive LoginData
  | needsVerification (email firstName lastName role : String)
  | loggedIn (id email firstName lastName role : String)
      (tokens : TokenPair)
deriving DecidableEq, Repr

/-- The `tokens` field of a login response (`null` in the
unverified-email shape). -/
def LoginData.tokens : LoginData → Option TokenPair
  | .needsVerification _ _ _ _ => none
  | .loggedIn _ _ _ _ _ t => some t

/-- The `emailVerified` field of a login response (present, `false`, in
the unverified-email shape only). -/
def LoginData.emailVerifiedField : LoginData → Option Bool
  | .needsVerification _ _ _ _ => some false
  | .loggedIn _ _ _ _ _ _ => none

/-- The fresh `EmailVerification` upsert written by
`sendEmailVerificationCode`: new code, expiry `now + 5min`, attempts 0
(update branch resets it; the create branch's schema default of 0 is
modelled from the spec). -/
structure VerificationUpsert where
  email : String
  code : String
  expiresAt : Int
  attempts : Nat
deriving DecidableEq, Repr

/-- Observable side effects of a login call: the `EmailVerification`
upsert and the `sendEmailVerification(recipient, code, name)` call. -/
structure LoginEffects where
  verificationUpsert : Option VerificationUpsert
  emailSent : Option (String × String)
deriving DecidableEq, Repr

/-- No side effects. -/
def noLoginEffects : LoginEffects := ⟨none, none⟩

/-- Environment of `UserAuthService.login`: ORM lookup, bcrypt compare,
the 6-digit code `randomInt(100000, 999999)` would produce, the clock,
and the token pair `generateTokens` would sign. -/
structure LoginEnv where
  findUserByEmail : String → Option UserRec
  bcryptCompare : String → String → Bool
  genCode : String
  now : Int
  genTokens : TokenPair

/-- `UserAuthService.sendEmailVerificationCode`: upserts a fresh SIGNUP
verification record and emails the code. -/
def sendEmailVerificationCode (env : LoginEnv) (user : UserRec) :
    LoginEffects :=
  { verificationUpsert := some
      { email := user.email, code := env.genCode,
        expiresAt := env.now + OTP_EXPIRATION_TIME * 60 * 1000,
        attempts := 0 },
    emailSent := some (user.email, env.genCode) }

/-- The body of `UserAuthService.login` after the
`findUnique({where:{email}})` lookup has produced `user`: the
`emailVerified` branch comes first, then the deleted/status checks, then
the password checks. -/
def userLoginWithUser (env : LoginEnv) (password : String)
    (user : UserRec) :
    Except HttpError (ApiResponse LoginData) × LoginEffects :=
  if user.emailVerified = false then
    (.ok (SuccessResponse "Please verify your email first"
        (.needsVerification user.email user.firstName user.lastName
          user.role)),
      sendEmailVerificationCode env user)
  else if user.isDeleted ∨ user.status = .DELETED then
    (.error (.unauthorized "This account does not exist"), noLoginEffects)
  else if user.status ≠ .ACTIVE then
    (.error (.unauthorized "You can't login at the moment"), noLoginEffects)
  else
    match user.password with
    | none =>
      (.error (.unauthorized
          "Please use the appropriate login method for your account"),
        noLoginEffects)
    | some hash =>
      if ¬ env.bcryptCompare password hash then
        (.error (.unauthorized "Invalid email or password"), noLoginEffects)
      else
        (.ok (SuccessResponse "Login successful"
            (.loggedIn user.id user.email user.firstName user.lastName
              user.role env.genTokens)),
          noLoginEffects)

/-- `UserAuthService.login`: lookup by email (miss → 401 with the
enumeration-safe message), then the per-user body. -/
def userLogin (env : LoginEnv) (email password : String) :
    Except HttpError (ApiResponse LoginData) × LoginEffects :=
  match env.findUserByEmail email with
  | none => (.error (.unauthorized "Invalid email or password"), noLoginEffects)
  | some user => userLoginWithUser env password user

/-! # Theorems -/

/-! ## C3: blacklist reads fail open -/

theorem isTokenBlacklisted_true_iff
    (g : String → Except String (Option String)) (t : String) :
    isTokenBlacklisted g t = true ↔
      ∃ v, g ("blacklist:" ++ t) = .ok (some v) := by
  unfold isTokenBlacklisted
  cases hr : g ("blacklist:" ++ t) with
  | ok v => cases v <;> simp
  | error e => simp

theorem isUserBlacklisted_true_iff
    (g : String → Except String (Option String)) (uid : String) :
    isUserBlacklisted g uid = true ↔
      ∃ v, g ("blacklist:user:" ++ uid) = .ok (some v) := by
  unfold isUserBlacklisted
  cases hr : g ("blacklist:user:" ++ uid) with
  | ok v => cases v <;> simp
  | error e => simp

theorem isAdminBlacklisted_true_iff
    (g : String → Except String (Option String)) (aid : String) :
    isAdminBlacklisted g aid = true ↔
      ∃ v, g ("blacklist:admin:" ++ aid) = .ok (some v) := by
  unfold isAdminBlacklisted
  cases hr : g ("blacklist:admin:" ++ aid) with
  | ok v => cases v <;> simp
  | error e => simp

/-- Claim C3: the revocation-store read operations `isTokenBlacklisted`,
`isUserBlacklisted` and `isAdminBlacklisted` never raise (they are total
functions into `Bool`: a store read that throws is caught); when the
underlying read throws they return `false` (fail open); and they return
`true` exactly when the store read succeeds and the key is present. -/
theorem C3_blacklist_reads_fail_open
    (g : String → Except String (Option String))
    (token uid aid : String) :
    ((∃ e, g ("blacklist:" ++ token) = .error e) →
      isTokenBlacklisted g token = false) ∧
    (isTokenBlacklisted g token = true ↔
      ∃ v, g ("blacklist:" ++ token) = .ok (some v)) ∧
    ((∃ e, g ("blacklist:user:" ++ uid) = .error e) →
      isUserBlacklisted g uid = false) ∧
    (isUserBlacklisted g uid = true ↔
      ∃ v, g ("blacklist:user:" ++ uid) = .ok (some v)) ∧
    ((∃ e, g ("blacklist:admin:" ++ aid) = .error e) →
      isAdminBlacklisted g aid = false) ∧
    (isAdminBlacklisted g aid = true ↔
      ∃ v, g ("blacklist:admin:" ++ aid) = .ok (some v)) := by
  refine ⟨?_, isTokenBlacklisted_true_iff g token, ?_,
    isUserBlacklisted_true_iff g uid, ?_,
    isAdminBlacklisted_true_iff g aid⟩
  · rintro ⟨e, he⟩
    unfold isTokenBlacklisted
    rw [he]
  · rintro ⟨e, he⟩
    unfold isUserBlacklisted
    rw [he]
  · rintro ⟨e, he⟩
    unfold isAdminBlacklisted
    rw [he]

/-- Witness for C3: a concrete store whose token key read throws, whose
user key is present and whose admin key is a miss. -/
theorem C3_blacklist_reads_fail_open_witness :
    isTokenBlacklisted
      (fun k => if k = "blacklist:t1" then .error "down"
        else if k = "blacklist:user:u1" then .ok (some "1") else .ok none)
      "t1" = false ∧
    isUserBlacklisted
      (fun k => if k = "blacklist:t1" then .error "down"
        else if k = "blacklist:user:u1" then .ok (some "1") else .ok none)
      "u1" = true ∧
    isAdminBlacklisted
      (fun k => if k = "blacklist:t1" then .error "down"
        else if k = "blacklist:user:u1" then .ok (some "1") else .ok none)
      "a1" = false := by
  have h := C3_blacklist_reads_fail_open
    (fun k => if k = "blacklist:t1" then .error "down"
      else if k = "blacklist:user:u1" then .ok (some "1") else .ok none)
    "t1" "u1" "a1"
  exact ⟨h.1 ⟨"down", by decide⟩, (h.2.2.2.1).mpr ⟨"1", by decide⟩,
    by decide⟩

/-! ## C9: parseExpiryToSeconds -/

theorem expiryRegexMatch_eq_some_iff (s : String) (ds : List Char)
    (u : Char) :
    expiryRegexMatch s = some (ds, u) ↔
      s.data = ds ++ [u] ∧ ds ≠ [] ∧ ds.all Char.isDigit = true ∧
        u.toLower ∈ ['s', 'm', 'h', 'd', 'w'] := by
  constructor
  · intro h
    unfold expiryRegexMatch at h
    split at h
    · exact absurd h (by simp)
    · rename_i u' hg
      split at h
      · rename_i hcond
        have h' := Option.some.inj h
        have hds : s.data.dropLast = ds := congrArg Prod.fst h'
        have hu : u' = u := congrArg Prod.snd h'
        subst hds
        subst hu
        obtain ⟨l', hl'⟩ := List.getLast?_eq_some_iff.mp hg
        have hdrop : s.data.dropLast ++ [u'] = s.data := by
          rw [hl', List.dropLast_concat]
        exact ⟨hdrop.symm, hcond.1, hcond.2.1, hcond.2.2⟩
      · exact absurd h (by simp)
  · rintro ⟨h1, h2, h3, h4⟩
    have hg : s.data.getLast? = some u :=
      List.getLast?_eq_some_iff.mpr ⟨ds, h1⟩
    have hdrop : s.data.dropLast = ds := by
      rw [h1, List.dropLast_concat]
    simp only [expiryRegexMatch, hg, hdrop]
    rw [if_pos ⟨h2, h3, h4⟩]

/-- Claim C9: the default is 604800 (7 days in seconds); an input that
matches an integer followed by a unit in `{s,m,h,d,w}` (case-insensitive)
parses to `value * multiplier` with the spec's multiplier table
`{s:1, m:60, h:3600, d:86400, w:604800}`; every input not of this shape
parses to the default. -/
theorem C9_parseExpiryToSeconds_correct :
    DEFAULT_TOKEN_EXPIRY_SECONDS = 604800 ∧
    (∀ (s : String) (ds : List Char) (u : Char),
      s.data = ds ++ [u] → ds ≠ [] → ds.all Char.isDigit = true →
      u.toLower ∈ ['s', 'm', 'h', 'd', 'w'] →
      parseExpiryToSeconds s = parseIntDec ds * specUnitSeconds u.toLower) ∧
    (∀ s : String,
      (¬ ∃ (ds : List Char) (u : Char),
        s.data = ds ++ [u] ∧ ds ≠ [] ∧ ds.all Char.isDigit = true ∧
          u.toLower ∈ ['s', 'm', 'h', 'd', 'w']) →
      parseExpiryToSeconds s = DEFAULT_TOKEN_EXPIRY_SECONDS) := by
  refine ⟨by norm_num [DEFAULT_TOKEN_EXPIRY_SECONDS], ?_, ?_⟩
  · intro s ds u h1 h2 h3 h4
    have hm : expiryRegexMatch s = some (ds, u) :=
      (expiryRegexMatch_eq_some_iff s ds u).mpr ⟨h1, h2, h3, h4⟩
    have hmul : (unitMultipliers u.toLower).getD DEFAULT_TOKEN_EXPIRY_SECONDS
        = specUnitSeconds u.toLower := by
      simp only [List.mem_cons, List.not_mem_nil, or_false] at h4
      rcases h4 with h | h | h | h | h <;> rw [h] <;> decide
    simp only [parseExpiryToSeconds, hm, hmul]
  · intro s hno
    cases hm : expiryRegexMatch s with
    | none =>
      simp only [parseExpiryToSeconds, hm]
    | some p =>
      exact absurd ⟨p.1, p.2,
        (expiryRegexMatch_eq_some_iff s p.1 p.2).mp hm⟩ hno

/-- Witness for C9: `"12H"` parses to `12 * 3600`, `"99x"` and `"d"` fall
back to the default. -/
theorem C9_parseExpiryToSeconds_correct_witness :
    parseExpiryToSeconds "12H" = 43200 ∧
    parseExpiryToSeconds "99x" = 604800 ∧
    parseExpiryToSeconds "d" = 604800 := by
  have h := C9_parseExpiryToSeconds_correct
  refine ⟨?_, ?_, ?_⟩
  · have := h.2.1 "12H" ['1', '2'] 'H' (by decide) (by decide) (by decide)
      (by decide)
    rw [this]
    decide
  · have hm : expiryRegexMatch "99x" = none := by decide
    have := h.2.2 "99x" (fun ⟨ds, u, h1, h2, h3, h4⟩ => by
      have : expiryRegexMatch "99x" = some (ds, u) :=
        (expiryRegexMatch_eq_some_iff _ ds u).mpr ⟨h1, h2, h3, h4⟩
      rw [hm] at this
      exact absurd this (by simp))
    rw [this, h.1]
  · have hm : expiryRegexMatch "d" = none := by decide
    have := h.2.2 "d" (fun ⟨ds, u, h1, h2, h3, h4⟩ => by
      have : expiryRegexMatch "d" = some (ds, u) :=
        (expiryRegexMatch_eq_some_iff _ ds u).mpr ⟨h1, h2, h3, h4⟩
      rw [hm] at this
      exact absurd this (by simp))
    rw [this, h.1]

/-! ## C1: flagged identities never authenticate -/

theorem basicAuthTryBody_rejects_flagged (env : UserGuardEnv)
    (v : String)
    (he : ∀ em u, env.findUserByEmail em = some u →
      u.isDeleted = true ∨ u.status ≠ .ACTIVE) :
    ∃ e, basicAuthTryBody env v = .error e := by
  unfold basicAuthTryBody
  dsimp only
  split_ifs with h1
  · exact ⟨_, rfl⟩
  · split
    · exact ⟨_, rfl⟩
    · rename_i user heq
      split_ifs with h2 h3 h4
      · exact ⟨_, rfl⟩
      · exact ⟨_, rfl⟩
      · rcases he _ user heq with hd | hs
        · exact absurd (Or.inl hd) h2
        · exact absurd hs h3
      · exact ⟨_, rfl⟩

theorem userGuardTryBody_rejects_flagged (env : UserGuardEnv)
    (t : String)
    (hu : ∀ id u, env.findUserById id = some u →
      u.isDeleted = true ∨ u.status ≠ .ACTIVE) :
    ∃ e, userGuardTryBody env t = .error e := by
  unfold userGuardTryBody
  split
  · exact ⟨_, rfl⟩
  · exact ⟨_, rfl⟩
  · exact ⟨_, rfl⟩
  · rename_i payload _
    split_ifs with h1 h2
    · exact ⟨_, rfl⟩
    · exact ⟨_, rfl⟩
    · split
      · exact ⟨_, rfl⟩
      · rename_i user heq
        split_ifs with h3 h4
        · exact ⟨_, rfl⟩
        · exact ⟨_, rfl⟩
        · rcases hu _ user heq with hd | hs
          · exact absurd (Or.inl hd) h3
          · exact absurd hs h4

theorem adminGuardTryBody_rejects_flagged (env : AdminGuardEnv)
    (t : String)
    (ha : ∀ id a, env.findAdminById id = some a →
      a.isDeleted = true ∨ a.isSuspended = true) :
    ∃ e, adminGuardTryBody env t = .error e := by
  unfold adminGuardTryBody
  split
  · exact ⟨_, rfl⟩
  · exact ⟨_, rfl⟩
  · exact ⟨_, rfl⟩
  · rename_i payload _
    split_ifs with h1 h2
    · exact ⟨_, rfl⟩
    · exact ⟨_, rfl⟩
    · split
      · exact ⟨_, rfl⟩
      · rename_i admin heq
        split_ifs with h3 h4
        · exact ⟨_, rfl⟩
        · exact ⟨_, rfl⟩
        · rcases ha _ admin heq with hd | hs
          · exact absurd hd h3
          · exact absurd hs h4

/-- Claim C1: an identity whose record is soft-deleted or not active
(user guard: `isDeleted`, `status = DELETED`, or `status ≠ ACTIVE`;
admin guard: `isDeleted` or `isSuspended`) is rejected by guard
authentication for every request header and every verification outcome
(`verifyAccess` is part of the universally quantified environment, so
the rejection holds even when the bearer token verifies). -/
theorem C1_flagged_identity_never_authenticates
    (envU : UserGuardEnv) (envA : AdminGuardEnv)
    (hUid : ∀ id u, envU.findUserById id = some u →
      u.isDeleted = true ∨ u.status ≠ .ACTIVE)
    (hUem : ∀ em u, envU.findUserByEmail em = some u →
      u.isDeleted = true ∨ u.status ≠ .ACTIVE)
    (hA : ∀ id a, envA.findAdminById id = some a →
      a.isDeleted = true ∨ a.isSuspended = true)
    (hdr : Option String) :
    (∃ e, authenticateUser envU hdr = .error e) ∧
    (∃ e, authenticateAdmin envA hdr = .error e) := by
  constructor
  · cases hdr with
    | none => exact ⟨_, rfl⟩
    | some h =>
      unfold authenticateUser
      dsimp only
      split_ifs with h0
      · exact ⟨_, rfl⟩
      · unfold authenticateUserParsed
        split_ifs with hb hty hbl
        · unfold authenticateBasicAuth
          obtain ⟨e, he⟩ := basicAuthTryBody_rejects_flagged envU _ hUem
          rw [he]
          exact ⟨_, rfl⟩
        · exact ⟨_, rfl⟩
        · exact ⟨_, rfl⟩
        · obtain ⟨e, he⟩ := userGuardTryBody_rejects_flagged envU _ hUid
          rw [he]
          cases e <;> exact ⟨_, rfl⟩
  · cases hdr with
    | none => exact ⟨_, rfl⟩
    | some h =>
      unfold authenticateAdmin
      dsimp only
      split_ifs with h0
      · exact ⟨_, rfl⟩
      · unfold authenticateAdminParsed
        split_ifs with hty hbl
        · exact ⟨_, rfl⟩
        · exact ⟨_, rfl⟩
        · obtain ⟨e, he⟩ := adminGuardTryBody_rejects_flagged envA _ hA
          rw [he]
          cases e with
          | expired => exact ⟨_, rfl⟩
          | malformed => exact ⟨_, rfl⟩
          | otherError => exact ⟨_, rfl⟩
          | thrown e' => cases e' <;> exact ⟨_, rfl⟩

/-- Witness for C1: a deactivated (not deleted) user and a suspended
admin, presented with a token that verifies successfully, are both
rejected. -/
theorem C1_flagged_identity_never_authenticates_witness :
    (∃ e, authenticateUser
      { basicAuthEnabled := false, redisGet := fun _ => .ok none,
        verifyAccess := fun _ => .ok ⟨"u1", "a@b.c", "USER"⟩,
        findUserById := fun _ => some
          { id := "u1", email := "a@b.c", firstName := "A", lastName := "B",
            role := "USER", status := .DEACTIVATED, isDeleted := false,
            emailVerified := true, password := some "h" },
        findUserByEmail := fun _ => some
          { id := "u1", email := "a@b.c", firstName := "A", lastName := "B",
            role := "USER", status := .DEACTIVATED, isDeleted := false,
            emailVerified := true, password := some "h" },
        decodeBase64 := fun s => s, bcryptCompare := fun _ _ => true }
      (some "Bearer tok") = .error e) ∧
    (∃ e, authenticateAdmin
      { redisGet := fun _ => .ok none,
        verifyAccess := fun _ => .ok ⟨"a1", "a@b.c", "ADMIN"⟩,
        findAdminById := fun _ => some
          { id := "a1", email := "a@b.c", firstName := "A", lastName := "B",
            role := "ADMIN", isDeleted := false, isSuspended := true,
            password := "h" } }
      (some "Bearer tok") = .error e) := by
  exact C1_flagged_identity_never_authenticates _ _
    (fun id u h => by cases Option.some.inj h; right; decide)
    (fun em u h => by cases Option.some.inj h; right; decide)
    (fun id a h => by cases Option.some.inj h; right; decide)
    (some "Bearer tok")

/-! ## C2: blacklisted tokens rejected before signature verification -/

theorem authenticateUserParsed_blacklisted (env : UserGuardEnv)
    (t : String) (ht : t ≠ "")
    (hb : isTokenBlacklisted env.redisGet t = true) :
    authenticateUserParsed env "Bearer" t =
      .error (.unauthorized "Token has been revoked.") := by
  have hA : ¬(env.basicAuthEnabled = true ∧ jsToLower "Bearer" = "basic") :=
    fun hc => absurd hc.2 (by decide)
  have hB : ¬(jsToLower "Bearer" ≠ "bearer" ∨ t = "") :=
    fun hc => hc.elim (fun h' => h' (by decide)) ht
  unfold authenticateUserParsed
  rw [if_neg hA, if_neg hB, if_pos hb]

theorem authenticateAdminParsed_blacklisted (env : AdminGuardEnv)
    (t : String) (ht : t ≠ "")
    (hb : isTokenBlacklisted env.redisGet t = true) :
    authenticateAdminParsed env "Bearer" t =
      .error (.unauthorized "Token has been revoked.") := by
  have hB : ¬(jsToLower "Bearer" ≠ "bearer" ∨ t = "") :=
    fun hc => hc.elim (fun h' => h' (by decide)) ht
  unfold authenticateAdminParsed
  rw [if_neg hB, if_pos hb]

/-- Claim C2: a bearer token whose raw string is in the revocation store
is rejected by both guards with `'Token has been revoked.'` for **every**
verification oracle (`verifyAccess` is universally quantified in the
environments, so the rejection does not depend on — and happens before —
signature/expiry verification). -/
theorem C2_blacklisted_token_rejected
    (envU : UserGuardEnv) (envA : AdminGuardEnv) (hdr t : String)
    (hsplit : jsSplit hdr ' ' = ["Bearer", t]) (ht : t ≠ "")
    (hbU : isTokenBlacklisted envU.redisGet t = true)
    (hbA : isTokenBlacklisted envA.redisGet t = true) :
    authenticateUser envU (some hdr) =
      .error (.unauthorized "Token has been revoked.") ∧
    authenticateAdmin envA (some hdr) =
      .error (.unauthorized "Token has been revoked.") := by
  have hne : hdr ≠ "" := by
    intro hh
    subst hh
    have hlen : (jsSplit "" ' ').length = 1 := by decide
    rw [hsplit] at hlen
    simp at hlen
  constructor
  · unfold authenticateUser
    dsimp only
    rw [if_neg hne, hsplit]
    exact authenticateUserParsed_blacklisted envU t ht hbU
  · unfold authenticateAdmin
    dsimp only
    rw [if_neg hne, hsplit]
    exact authenticateAdminParsed_blacklisted envA t ht hbA

/-- Witness for C2: a concrete blacklisted token, with verification
oracles that would accept it. -/
theorem C2_blacklisted_token_rejected_witness :
    authenticateUser
      { basicAuthEnabled := false,
        redisGet := fun k => if k = "blacklist:tok" then .ok (some "1")
          else .ok none,
        verifyAccess := fun _ => .ok ⟨"u1", "a@b.c", "USER"⟩,
        findUserById := fun _ => some
          { id := "u1", email := "a@b.c", firstName := "A", lastName := "B",
            role := "USER", status := .ACTIVE, isDeleted := false,
            emailVerified := true, password := some "h" },
        findUserByEmail := fun _ => none,
        decodeBase64 := fun s => s, bcryptCompare := fun _ _ => true }
      (some "Bearer tok") =
        .error (.unauthorized "Token has been revoked.") ∧
    authenticateAdmin
      { redisGet := fun k => if k = "blacklist:tok" then .ok (some "1")
          else .ok none,
        verifyAccess := fun _ => .ok ⟨"a1", "a@b.c", "ADMIN"⟩,
        findAdminById := fun _ => some
          { id := "a1", email := "a@b.c", firstName := "A", lastName := "B",
            role := "ADMIN", isDeleted := false, isSuspended := false,
            password := "h" } }
      (some "Bearer tok") =
        .error (.unauthorized "Token has been revoked.") := by
  exact C2_blacklisted_token_rejected _ _ "Bearer tok" "tok"
    (by decide) (by decide) (by decide) (by decide)

/-! ## C7: rejection status codes -/

theorem authenticateUserParsed_error_401 (env : UserGuardEnv)
    (a v : String) (e : HttpError)
    (h : authenticateUserParsed env a v = .error e) : e.statusCode = 401 := by
  unfold authenticateUserParsed at h
  split_ifs at h with h1 h2 h3
  · unfold authenticateBasicAuth at h
    split at h
    · exact Except.noConfusion h
    · injection h with h'
      subst h'
      rfl
  · injection h with h'
    subst h'
    rfl
  · injection h with h'
    subst h'
    rfl
  · split at h <;>
      first
        | exact Except.noConfusion h
        | (injection h with h'; subst h'; rfl)

theorem authenticateAdminParsed_error_classified (env : AdminGuardEnv)
    (a v : String) (e : HttpError)
    (h : authenticateAdminParsed env a v = .error e) :
    e.statusCode = 401 ∨ e = .badRequest "Invalid token" := by
  unfold authenticateAdminParsed at h
  split_ifs at h with h1 h2
  · injection h with h'
    subst h'
    exact Or.inl rfl
  · injection h with h'
    subst h'
    exact Or.inl rfl
  · split at h <;>
      first
        | exact Except.noConfusion h
        | (injection h with h'; subst h'; exact Or.inl rfl)
        | (injection h with h'; subst h'; exact Or.inr rfl)

/-- Counterexample to C7 as stated: a bearer token failing verification
as malformed (`JsonWebTokenError`) makes the **admin** guard throw
`BadRequestException('Invalid token')` — HTTP 400, not 401. -/
theorem C7_counterexample_admin_malformed_400 :
    authenticateAdmin
      { redisGet := fun _ => .ok none,
        verifyAccess := fun _ => .malformed,
        findAdminById := fun _ => none }
      (some "Bearer tok") = .error (.badRequest "Invalid token") ∧
    (HttpError.badRequest "Invalid token").statusCode = 400 ∧
    (HttpError.badRequest "Invalid token").statusCode ≠ 401 := by
  refine ⟨by decide, rfl, by decide⟩

/-- Claim C7 (amended): every authentication rejection of the user guard
is an HTTP 401 (`UnauthorizedException`) — including the basic-auth
path, whose internal `BadRequestException` is caught and replaced; in
the admin guard every rejection is a 401 **except** a token failing
verification as malformed (`JsonWebTokenError`), which is surfaced as a
400 `BadRequestException('Invalid token')` — the only 400 the admin
guard can emit. -/
theorem C7_amended_guard_rejection_statuses (envU : UserGuardEnv)
    (envA : AdminGuardEnv) (hdr : Option String) :
    (∀ e, authenticateUser envU hdr = .error e → e.statusCode = 401) ∧
    (∀ e, authenticateAdmin envA hdr = .error e →
      e.statusCode = 401 ∨ e = .badRequest "Invalid token") := by
  constructor
  · intro e h
    cases hdr with
    | none =>
      unfold authenticateUser at h
      dsimp only at h
      injection h with h'
      subst h'
      rfl
    | some s =>
      unfold authenticateUser at h
      dsimp only at h
      split_ifs at h with h0
      · injection h with h'
        subst h'
        rfl
      · exact authenticateUserParsed_error_401 envU _ _ e h
  · intro e h
    cases hdr with
    | none =>
      unfold authenticateAdmin at h
      dsimp only at h
      injection h with h'
      subst h'
      exact Or.inl rfl
    | some s =>
      unfold authenticateAdmin at h
      dsimp only at h
      split_ifs at h with h0
      · injection h with h'
        subst h'
        exact Or.inl rfl
      · exact authenticateAdminParsed_error_classified envA _ _ e h

/-- Witness for C7 (amended): concrete rejections — an expired token at
the user guard (401) and a malformed token at the admin guard (the 400
disjunct). -/
theorem C7_amended_guard_rejection_statuses_witness :
    (HttpError.unauthorized "Token expired.").statusCode = 401 ∧
    ((HttpError.badRequest "Invalid token").statusCode = 401 ∨
      HttpError.badRequest "Invalid token" =
        HttpError.badRequest "Invalid token") := by
  constructor
  · exact (C7_amended_guard_rejection_statuses
      { basicAuthEnabled := false, redisGet := fun _ => .ok none,
        verifyAccess := fun _ => .expired, findUserById := fun _ => none,
        findUserByEmail := fun _ => none, decodeBase64 := fun s => s,
        bcryptCompare := fun _ _ => false }
      { redisGet := fun _ => .ok none, verifyAccess := fun _ => .expired,
        findAdminById := fun _ => none }
      (some "Bearer tok")).1 _ (by decide)
  · exact (C7_amended_guard_rejection_statuses
      { basicAuthEnabled := false, redisGet := fun _ => .ok none,
        verifyAccess := fun _ => .malformed, findUserById := fun _ => none,
        findUserByEmail := fun _ => none, decodeBase64 := fun s => s,
        bcryptCompare := fun _ _ => false }
      { redisGet := fun _ => .ok none, verifyAccess := fun _ => .malformed,
        findAdminById := fun _ => none }
      (some "Bearer tok")).2 _ (by decide)

/-! ## C4: refresh with an identity-level blacklist entry -/

/-- Counterexample to C4 as stated: the refresh token verifies and an
identity-level blacklist entry exists, yet the surfaced message is the
generic catch-all one, not `'User/Admin tokens have been revoked'`. -/
theorem C4_counterexample_refresh_revoked_message :
    userRefreshToken
      { redisGet := fun k => if k = "blacklist:user:u1" then .ok (some "1")
          else .ok none,
        verifyRefresh := fun _ => .ok ⟨"u1", "a@b.c", "USER"⟩,
        findUserById := fun _ => some
          { id := "u1", email := "a@b.c", firstName := "A", lastName := "B",
            role := "USER", status := .ACTIVE, isDeleted := false,
            emailVerified := true, password := some "h" },
        genTokens := ⟨"at2", "rt2"⟩ }
      "rtok" = .error (.unauthorized "Invalid refresh token") ∧
    adminRefreshToken
      { redisGet := fun k => if k = "blacklist:admin:a1" then .ok (some "1")
          else .ok none,
        verifyRefresh := fun _ => .ok ⟨"a1", "a@b.c", "ADMIN"⟩,
        findAdminById := fun _ => some
          { id := "a1", email := "a@b.c", firstName := "A", lastName := "B",
            role := "ADMIN", isDeleted := false, isSuspended := false,
            password := "h" },
        genTokens := ⟨"at2", "rt2"⟩ }
      "rtok" = .error (.unauthorized "Invalid or expired refresh token") ∧
    HttpError.unauthorized "Invalid refresh token" ≠
      .unauthorized "User tokens have been revoked" ∧
    HttpError.unauthorized "Invalid or expired refresh token" ≠
      .unauthorized "Admin tokens have been revoked" := by
  refine ⟨by decide, by decide, by decide, by decide⟩

/-- Claim C4 (amended): a refresh whose token verifies but whose subject
carries an identity-level blacklist entry in the matching namespace is
rejected with a 401 and no token pair is issued — but the surfaced
message is `'Invalid refresh token'` (user) / `'Invalid or expired
refresh token'` (admin): the internally thrown `'User/Admin tokens have
been revoked'` exception is swallowed by the flow's catch-all. -/
theorem C4_amended_refresh_identity_blacklist
    (envU : UserRefreshEnv) (envA : AdminRefreshEnv) (t : String)
    (pU pA : JwtClaims)
    (hvU : envU.verifyRefresh t = .ok pU)
    (hbU : isUserBlacklisted envU.redisGet pU.sub = true)
    (hvA : envA.verifyRefresh t = .ok pA)
    (hbA : isAdminBlacklisted envA.redisGet pA.sub = true) :
    userRefreshToken envU t =
      .error (.unauthorized "Invalid refresh token") ∧
    adminRefreshToken envA t =
      .error (.unauthorized "Invalid or expired refresh token") := by
  constructor
  · have hU : ∃ c, userRefreshTryBody envU t = .error c := by
      unfold userRefreshTryBody
      by_cases htb : isTokenBlacklisted envU.redisGet t = true
      · rw [if_pos htb]
        exact ⟨_, rfl⟩
      · rw [if_neg htb, hvU]
        dsimp only
        rw [if_pos hbU]
        exact ⟨_, rfl⟩
    obtain ⟨c, hc⟩ := hU
    unfold userRefreshToken
    rw [hc]
  · have hA : ∃ c, adminRefreshTryBody envA t = .error c := by
      unfold adminRefreshTryBody
      by_cases htb : isTokenBlacklisted envA.redisGet t = true
      · rw [if_pos htb]
        exact ⟨_, rfl⟩
      · rw [if_neg htb, hvA]
        dsimp only
        rw [if_pos hbA]
        exact ⟨_, rfl⟩
    obtain ⟨c, hc⟩ := hA
    unfold adminRefreshToken
    rw [hc]

/-- Witness for C4 (amended): the counterexample environments, fed
through the amended theorem. -/
theorem C4_amended_refresh_identity_blacklist_witness :
    userRefreshToken
      { redisGet := fun k => if k = "blacklist:user:u1" then .ok (some "1")
          else .ok none,
        verifyRefresh := fun _ => .ok ⟨"u1", "a@b.c", "USER"⟩,
        findUserById := fun _ => none, genTokens := ⟨"at2", "rt2"⟩ }
      "rtok" = .error (.unauthorized "Invalid refresh token") ∧
    adminRefreshToken
      { redisGet := fun k => if k = "blacklist:admin:a1" then .ok (some "1")
          else .ok none,
        verifyRefresh := fun _ => .ok ⟨"a1", "a@b.c", "ADMIN"⟩,
        findAdminById := fun _ => none, genTokens := ⟨"at2", "rt2"⟩ }
      "rtok" = .error (.unauthorized "Invalid or expired refresh token") := by
  exact C4_amended_refresh_identity_blacklist _ _ "rtok"
    ⟨"u1", "a@b.c", "USER"⟩ ⟨"a1", "a@b.c", "ADMIN"⟩
    (by decide) (by decide) (by decide) (by decide)

/-! ## C5: logout -/

theorem userLogout_returns_success (env : LogoutEnv) (a r : String) :
    (userLogout env a r).1 = SuccessResponse "Logout successful" none := by
  unfold userLogout
  dsimp only
  repeat' split
  all_goals rfl

theorem adminLogoutRefreshStep_returns_success (env : LogoutEnv)
    (r : Option String) (ws : List (String × Int)) :
    (adminLogoutRefreshStep env r ws).1 =
      SuccessResponse "Logout successful" none := by
  unfold adminLogoutRefreshStep
  dsimp only
  repeat' split
  all_goals rfl

theorem adminLogout_returns_success (env : LogoutEnv) (a : String)
    (r : Option String) :
    (adminLogout env a r).1 = SuccessResponse "Logout successful" none := by
  unfold adminLogout
  dsimp only
  repeat' split
  all_goals first
    | rfl
    | exact adminLogoutRefreshStep_returns_success env r _

theorem userLogout_writes_pos (env : LogoutEnv) (a r : String) :
    ∀ t ttl, (t, ttl) ∈ (userLogout env a r).2 → 0 < ttl := by
  intro t ttl hm
  unfold userLogout at hm
  dsimp only at hm
  repeat' split at hm
  all_goals simp_all
  all_goals (rcases hm with ⟨rfl, rfl⟩ | ⟨rfl, rfl⟩ <;> assumption)

theorem adminLogoutRefreshStep_writes_pos (env : LogoutEnv)
    (r : Option String) (ws : List (String × Int))
    (hws : ∀ t ttl, (t, ttl) ∈ ws → 0 < ttl) :
    ∀ t ttl, (t, ttl) ∈ (adminLogoutRefreshStep env r ws).2 → 0 < ttl := by
  intro t ttl hm
  unfold adminLogoutRefreshStep at hm
  dsimp only at hm
  repeat' split at hm
  all_goals try exact hws t ttl hm
  all_goals
    (simp only [List.mem_append, List.mem_singleton, Prod.mk.injEq] at hm
     rcases hm with hm | ⟨rfl, rfl⟩
     · exact hws t ttl hm
     · assumption)

theorem adminLogout_writes_pos (env : LogoutEnv) (a : String)
    (r : Option String) :
    ∀ t ttl, (t, ttl) ∈ (adminLogout env a r).2 → 0 < ttl := by
  intro t ttl hm
  unfold adminLogout at hm
  dsimp only at hm
  repeat' split at hm
  all_goals first
    | exact adminLogoutRefreshStep_writes_pos env r _
        (by intro t' ttl' hm'
            simp only [List.mem_singleton, Prod.mk.injEq] at hm'
            rcases hm' with ⟨rfl, rfl⟩
            assumption) t ttl hm
    | exact adminLogoutRefreshStep_writes_pos env r _
        (by intro t' ttl' hm'
            simp at hm') t ttl hm
    | simp_all

theorem userLogout_writes_exact (env : LogoutEnv) (a r : String)
    (hok : ∀ k n, env.setEx k n = .ok ()) (ap rp : DecodedTok)
    (ha : env.decode a = some ap) (hr : env.decode r = some rp) :
    (userLogout env a r).2 =
      (if 0 < remainingTTL ap.exp env.now
        then [(a, remainingTTL ap.exp env.now)] else []) ++
      (if 0 < remainingTTL rp.exp env.now
        then [(r, remainingTTL rp.exp env.now)] else []) := by
  unfold userLogout
  rw [ha, hr]
  dsimp only
  simp only [blacklistToken, hok]
  split_ifs <;> simp_all

theorem adminLogout_writes_exact (env : LogoutEnv) (a r : String)
    (hok : ∀ k n, env.setEx k n = .ok ()) (ap rp : DecodedTok)
    (ha : env.decode a = some ap) (hr : env.decode r = some rp) :
    (adminLogout env a (some r)).2 =
      (if 0 < remainingTTL ap.exp env.now
        then [(a, remainingTTL ap.exp env.now)] else []) ++
      (if 0 < remainingTTL rp.exp env.now
        then [(r, remainingTTL rp.exp env.now)] else []) := by
  unfold adminLogout adminLogoutRefreshStep
  rw [ha]
  dsimp only
  simp only [blacklistToken, hok, hr]
  split_ifs <;> simp_all

/-- Claim C5: both logout flows return the success envelope for every
input — in particular when a token fails to decode or the blacklist
write throws; every blacklist write carries a strictly positive TTL
`max(0, exp − now)`; and when decoding succeeds and the store accepts
writes, each presented token is written exactly when its remaining TTL
is positive. -/
theorem C5_logout_success_and_ttl (env : LogoutEnv) (a r : String)
    (rOpt : Option String) :
    (userLogout env a r).1 = SuccessResponse "Logout successful" none ∧
    (adminLogout env a rOpt).1 = SuccessResponse "Logout successful" none ∧
    (∀ t ttl, (t, ttl) ∈ (userLogout env a r).2 → 0 < ttl) ∧
    (∀ t ttl, (t, ttl) ∈ (adminLogout env a rOpt).2 → 0 < ttl) ∧
    ((∀ k n, env.setEx k n = .ok ()) →
      ∀ ap rp, env.decode a = some ap → env.decode r = some rp →
        (userLogout env a r).2 =
          (if 0 < remainingTTL ap.exp env.now
            then [(a, remainingTTL ap.exp env.now)] else []) ++
          (if 0 < remainingTTL rp.exp env.now
            then [(r, remainingTTL rp.exp env.now)] else []) ∧
        (adminLogout env a (some r)).2 =
          (if 0 < remainingTTL ap.exp env.now
            then [(a, remainingTTL ap.exp env.now)] else []) ++
          (if 0 < remainingTTL rp.exp env.now
            then [(r, remainingTTL rp.exp env.now)] else [])) := by
  refine ⟨userLogout_returns_success env a r,
    adminLogout_returns_success env a rOpt,
    userLogout_writes_pos env a r,
    adminLogout_writes_pos env a rOpt,
    fun hok ap rp ha hr =>
      ⟨userLogout_writes_exact env a r hok ap rp ha hr,
        adminLogout_writes_exact env a r hok ap rp ha hr⟩⟩

/-- Witness for C5: a store that always fails its writes still yields the
success envelope with no recorded write; a healthy store writes exactly
the access token (TTL 50) and skips the already-expired refresh token. -/
theorem C5_logout_success_and_ttl_witness :
    (userLogout
      { decode := fun t => if t = "at" then some ⟨"u1", "e", "USER", 150⟩
          else some ⟨"u1", "e", "USER", 80⟩,
        now := 100, setEx := fun _ _ => .error "down" } "at" "rt").1 =
      SuccessResponse "Logout successful" none ∧
    (userLogout
      { decode := fun t => if t = "at" then some ⟨"u1", "e", "USER", 150⟩
          else some ⟨"u1", "e", "USER", 80⟩,
        now := 100, setEx := fun _ _ => .ok () } "at" "rt").2 =
      [("at", 50)] := by
  constructor
  · exact (C5_logout_success_and_ttl
      { decode := fun t => if t = "at" then some ⟨"u1", "e", "USER", 150⟩
          else some ⟨"u1", "e", "USER", 80⟩,
        now := 100, setEx := fun _ _ => .error "down" } "at" "rt" none).1
  · have h := ((C5_logout_success_and_ttl
      { decode := fun t => if t = "at" then some ⟨"u1", "e", "USER", 150⟩
          else some ⟨"u1", "e", "USER", 80⟩,
        now := 100, setEx := fun _ _ => .ok () } "at" "rt" none).2.2.2.2
      (fun _ _ => rfl) ⟨"u1", "e", "USER", 150⟩ ⟨"u1", "e", "USER", 80⟩
      (by decide) (by decide)).1
    rw [h]
    decide

/-! ## C6: password-reset attempt cap -/

/-- A reset record already at the attempt cap, with a matching code and
an unexpired window. -/
def cappedResetRecord : ResetRecord :=
  { email := "a@b.c", code := "123456", expiresAt := 1000,
    attempts := 3, verifiedAt := none }

/-- Counterexample to C6 as stated: the **user** flow
(`verifyResetCode`), at the attempt cap, rejects with the
too-many-attempts error but does **not** delete the reset record — the
record is still present, unchanged, after the call (only the admin flow
deletes). -/
theorem C6_counterexample_user_cap_keeps_record :
    (userVerifyResetCode true (some cappedResetRecord) 500 "123456"
      "tok").1 = .error (.badRequest
        "Too many failed attempts. Please request a new reset code.") ∧
    (userVerifyResetCode true (some cappedResetRecord) 500 "123456"
      "tok").2 = some cappedResetRecord := by
  exact ⟨by decide, by decide⟩

/-- Claim C6 (amended): in both flows a wrong code increments `attempts`
by one and rejects; once `attempts` has reached the cap of 3 the call
rejects with a too-many-attempts error — the **admin** flow deletes the
reset record, but the **user** flow leaves the record in place; in both
flows a subsequent `forgotPassword` upsert nevertheless yields a fresh
record with `attempts` reset to 0, a new code and a new expiry. -/
theorem C6_amended_reset_attempt_cap (rec : ResetRecord) (now : Int)
    (code tok email cnew : String) (state : Option ResetRecord)
    (emailOk : Bool) :
    (¬ rec.expiresAt < now → rec.attempts < MAX_PASSWORD_RESET_ATTEMPTS →
      rec.code ≠ code →
      userVerifyResetCode true (some rec) now code tok =
        (.error (.badRequest "Invalid reset code"),
          some { rec with attempts := rec.attempts + 1 })) ∧
    (¬ now > rec.expiresAt → rec.attempts < MAX_PASSWORD_RESET_ATTEMPTS →
      rec.code ≠ code →
      adminVerifyCode (some rec) now code =
        (.error (.badRequest "Invalid reset code"),
          some { rec with attempts := rec.attempts + 1 })) ∧
    (¬ rec.expiresAt < now → rec.attempts ≥ MAX_PASSWORD_RESET_ATTEMPTS →
      userVerifyResetCode true (some rec) now code tok =
        (.error (.badRequest
            "Too many failed attempts. Please request a new reset code."),
          some rec)) ∧
    (¬ now > rec.expiresAt → rec.attempts ≥ MAX_PASSWORD_RESET_ATTEMPTS →
      adminVerifyCode (some rec) now code =
        (.error (.badRequest "Too many failed attempts"), none)) ∧
    (∃ nr, (userForgotPassword true state now email cnew).2 = some nr ∧
      nr.attempts = 0 ∧ nr.code = cnew ∧
      nr.expiresAt = now + OTP_EXPIRATION_TIME * 60 * 1000) ∧
    (∃ nr, (adminForgotPassword true state now email cnew emailOk).2 =
        some nr ∧ nr.attempts = 0 ∧ nr.code = cnew ∧
      nr.expiresAt = now + OTP_EXPIRATION_TIME * 60 * 1000) := by
  have htrue : ¬ ¬ (true = true) := by simp
  refine ⟨?_, ?_, ?_, ?_, ?_, ?_⟩
  · intro h1 h2 h3
    unfold userVerifyResetCode
    rw [if_neg htrue]
    dsimp only
    rw [if_neg h1, if_neg (by omega), if_pos h3]
  · intro h1 h2 h3
    unfold adminVerifyCode
    dsimp only
    rw [if_neg h1, if_neg (by omega), if_pos h3]
  · intro h1 h2
    unfold userVerifyResetCode
    rw [if_neg htrue]
    dsimp only
    rw [if_neg h1, if_pos h2]
  · intro h1 h2
    unfold adminVerifyCode
    dsimp only
    rw [if_neg h1, if_pos h2]
  · unfold userForgotPassword
    rw [if_neg htrue]
    cases state with
    | none => exact ⟨_, rfl, rfl, rfl, rfl⟩
    | some old => exact ⟨_, rfl, rfl, rfl, rfl⟩
  · unfold adminForgotPassword
    rw [if_neg htrue]
    cases emailOk with
    | false =>
      cases state with
      | none => exact ⟨_, rfl, rfl, rfl, rfl⟩
      | some old => exact ⟨_, rfl, rfl, rfl, rfl⟩
    | true =>
      cases state with
      | none => exact ⟨_, rfl, rfl, rfl, rfl⟩
      | some old => exact ⟨_, rfl, rfl, rfl, rfl⟩

/-- Witness for C6 (amended): a wrong code on a fresh user record
increments the counter; an admin record at the cap is deleted. -/
theorem C6_amended_reset_attempt_cap_witness :
    userVerifyResetCode true
      (some { email := "a@b.c", code := "1234", expiresAt := 1000,
              attempts := 0, verifiedAt := none }) 500 "9999" "tok" =
      (.error (.badRequest "Invalid reset code"),
        some { email := "a@b.c", code := "1234", expiresAt := 1000,
               attempts := 1, verifiedAt := none }) ∧
    adminVerifyCode (some cappedResetRecord) 500 "123456" =
      (.error (.badRequest "Too many failed attempts"), none) := by
  constructor
  · exact (C6_amended_reset_attempt_cap
      { email := "a@b.c", code := "1234", expiresAt := 1000,
        attempts := 0, verifiedAt := none } 500 "9999" "tok" "a@b.c"
      "1234" none true).1 (by decide) (by decide) (by decide)
  · exact (C6_amended_reset_attempt_cap cappedResetRecord 500 "123456"
      "tok" "a@b.c" "1234" none true).2.2.2.1 (by decide) (by decide)

/-! ## C8 and C10: user login and the order of its checks -/

theorem userLoginWithUser_unverified (env : LoginEnv) (pwd : String)
    (u : UserRec) (hv : u.emailVerified = false) :
    userLoginWithUser env pwd u =
      (.ok (SuccessResponse "Please verify your email first"
        (.needsVerification u.email u.firstName u.lastName u.role)),
        { verificationUpsert := some
            { email := u.email, code := env.genCode,
              expiresAt := env.now + OTP_EXPIRATION_TIME * 60 * 1000,
              attempts := 0 },
          emailSent := some (u.email, env.genCode) }) := by
  unfold userLoginWithUser sendEmailVerificationCode
  rw [if_pos hv]

/-- Claim C8: when the looked-up user exists with `emailVerified=false`,
login does not reject: it returns the success envelope whose data is the
needs-verification shape with `tokens: null` and `emailVerified: false`,
and as side effects upserts a fresh verification code (attempts 0, new
expiry) and invokes the email collaborator with that code. -/
theorem C8_login_unverified_email_flow (env : LoginEnv)
    (email password : String) (u : UserRec)
    (hf : env.findUserByEmail email = some u)
    (hv : u.emailVerified = false) :
    (userLogin env email password).1 =
      .ok (SuccessResponse "Please verify your email first"
        (.needsVerification u.email u.firstName u.lastName u.role)) ∧
    (LoginData.needsVerification u.email u.firstName u.lastName
      u.role).tokens = none ∧
    (LoginData.needsVerification u.email u.firstName u.lastName
      u.role).emailVerifiedField = some false ∧
    (userLogin env email password).2 =
      { verificationUpsert := some
          { email := u.email, code := env.genCode,
            expiresAt := env.now + OTP_EXPIRATION_TIME * 60 * 1000,
            attempts := 0 },
        emailSent := some (u.email, env.genCode) } := by
  have hrun : userLogin env email password =
      (.ok (SuccessResponse "Please verify your email first"
        (.needsVerification u.email u.firstName u.lastName u.role)),
        { verificationUpsert := some
            { email := u.email, code := env.genCode,
              expiresAt := env.now + OTP_EXPIRATION_TIME * 60 * 1000,
              attempts := 0 },
          emailSent := some (u.email, env.genCode) }) := by
    unfold userLogin
    rw [hf]
    dsimp only
    exact userLoginWithUser_unverified env password u hv
  exact ⟨by rw [hrun], rfl, rfl, by rw [hrun]⟩

/-- Witness for C8: a concrete unverified user; login answers with the
needs-verification envelope and sends the code `"654321"`. -/
theorem C8_login_unverified_email_flow_witness :
    (userLogin
      { findUserByEmail := fun _ => some
          { id := "u1", email := "a@b.c", firstName := "A", lastName := "B",
            role := "USER", status := .ACTIVE, isDeleted := false,
            emailVerified := false, password := some "h" },
        bcryptCompare := fun _ _ => true, genCode := "654321",
        now := 0, genTokens := ⟨"at", "rt"⟩ } "a@b.c" "pw").2 =
      { verificationUpsert := some
          { email := "a@b.c", code := "654321",
            expiresAt := 0 + OTP_EXPIRATION_TIME * 60 * 1000,
            attempts := 0 },
        emailSent := some ("a@b.c", "654321") } := by
  exact (C8_login_unverified_email_flow
    { findUserByEmail := fun _ => some
        { id := "u1", email := "a@b.c", firstName := "A", lastName := "B",
          role := "USER", status := .ACTIVE, isDeleted := false,
          emailVerified := false, password := some "h" },
      bcryptCompare := fun _ _ => true, genCode := "654321",
      now := 0, genTokens := ⟨"at", "rt"⟩ } "a@b.c" "pw"
    { id := "u1", email := "a@b.c", firstName := "A", lastName := "B",
      role := "USER", status := .ACTIVE, isDeleted := false,
      emailVerified := false, password := some "h" }
    rfl rfl).2.2.2

/-- Claim C10: `login` evaluates the `emailVerified` check before the
deleted/status checks and before the password comparison: for an
unverified record the outcome is the same needs-verification success —
with the verification-email side effect — for **every** password and
every `isDeleted`/`status`/stored-password combination; and the
verification send is reached only when `emailVerified` is false (a
verified record produces no verification side effect on any path). -/
theorem C10_login_checks_emailVerified_first (env : LoginEnv)
    (pwd1 pwd2 : String) (u : UserRec) (st1 st2 : UserStatus)
    (d1 d2 : Bool) (p1 p2 : Option String)
    (hv : u.emailVerified = false) :
    (userLoginWithUser env pwd1
        { u with status := st1, isDeleted := d1, password := p1 } =
      userLoginWithUser env pwd2
        { u with status := st2, isDeleted := d2, password := p2 }) ∧
    (userLoginWithUser env pwd1
        { u with status := st1, isDeleted := d1, password := p1 }).1 =
      .ok (SuccessResponse "Please verify your email first"
        (.needsVerification u.email u.firstName u.lastName u.role)) ∧
    (∀ v : UserRec, v.emailVerified = true →
      (userLoginWithUser env pwd1 v).2 = noLoginEffects) := by
  refine ⟨?_, ?_, ?_⟩
  · rw [userLoginWithUser_unverified env pwd1
        { u with status := st1, isDeleted := d1, password := p1 } hv,
      userLoginWithUser_unverified env pwd2
        { u with status := st2, isDeleted := d2, password := p2 } hv]
  · rw [userLoginWithUser_unverified env pwd1
        { u with status := st1, isDeleted := d1, password := p1 } hv]
  · intro v hv'
    unfold userLoginWithUser
    rw [if_neg (by rw [hv']; simp)]
    repeat' split
    all_goals rfl

/-- Witness for C10: a deleted, wrong-password, unverified record still
gets the needs-verification response. -/
theorem C10_login_checks_emailVerified_first_witness :
    (userLoginWithUser
      { findUserByEmail := fun _ => none,
        bcryptCompare := fun _ _ => false, genCode := "654321",
        now := 0, genTokens := ⟨"at", "rt"⟩ } "wrongpw"
      { id := "u1", email := "a@b.c", firstName := "A", lastName := "B",
        role := "USER", status := .DELETED, isDeleted := true,
        emailVerified := false, password := none }).1 =
      .ok (SuccessResponse "Please verify your email first"
        (.needsVerification "a@b.c" "A" "B" "USER")) := by
  exact (C10_login_checks_emailVerified_first
    { findUserByEmail := fun _ => none,
      bcryptCompare := fun _ _ => false, genCode := "654321",
      now := 0, genTokens := ⟨"at", "rt"⟩ } "wrongpw" "pw2"
    { id := "u1", email := "a@b.c", firstName := "A", lastName := "B",
      role := "USER", status := .ACTIVE, isDeleted := false,
      emailVerified := false, password := some "h" }
    .DELETED .ACTIVE true false none (some "h") rfl).2.1

end Backend
